import Mathlib

/-!
Shallow embedding of the `imf_reader` WEO core
(`src/imf_reader/weo/reader.py`, `src/imf_reader/weo/parser.py`,
`src/imf_reader/config.py`) and proofs about the spec claims on version
policy, fetch orchestration, archive checking, SDMX flattening and
numeric coercion.

Conventions of the embedding:
* Python exceptions are values of `PyErr`; fallible functions return
  `Except PyErr _`.
* Python tuples that reach `validate_version` are modelled as lists of
  `PyVal` (a string or an integer), which captures the shapes and the
  label/year payloads the code inspects.
* `datetime.now()` is passed in explicitly as a (month, year) pair.
* The single-version fetch collaborator `_fetch` (scrape + parse + cache)
  is an explicit function argument of the orchestrator.
* pandas DataFrames are modelled as lists of rows, each row an
  association list from column name to `Val`; `NaN`/missing is `Val.vNan`.
* Error message strings follow the source, except that quote characters
  around interpolated values are dropped.
-/

namespace ImfReader

/-- Python exception classes raised or caught by the embedded code.
`noDataError` and `unexpectedFileError` are the classes defined in
`imf_reader/config.py`; the rest are Python builtins that the code can
raise. -/
inductive PyErr where
  | typeError (msg : String)
  | valueError (msg : String)
  | attributeError (msg : String)
  | indexError (msg : String)
  | keyError (msg : String)
  | noDataError (msg : String)
  | unexpectedFileError (msg : String)
  | connectionError (msg : String)
  deriving DecidableEq, Repr

/-- Python `str(e)`: the message carried by the exception. -/
def PyErr.str : PyErr → String
  | .typeError m => m
  | .valueError m => m
  | .attributeError m => m
  | .indexError m => m
  | .keyError m => m
  | .noDataError m => m
  | .unexpectedFileError m => m
  | .connectionError m => m

/-- Check for the `except NoDataError` clause in `fetch_data`. -/
def PyErr.isNoDataError : PyErr → Bool
  | .noDataError _ => true
  | _ => false

/-- Realization of the abstract spec error `InvalidVersionError`: the
code raises `TypeError` (in `validate_version`) or `ValueError` (in
`roll_back_version`) for malformed version input. -/
def PyErr.isInvalidVersionError : PyErr → Bool
  | .typeError _ => true
  | .valueError _ => true
  | _ => false

/-- Python scalar values appearing inside version tuples: the code only
inspects string and integer payloads. -/
inductive PyVal where
  | pyStr (s : String)
  | pyInt (n : Int)
  deriving DecidableEq, Repr

/-- Python f-string rendering of a `PyVal` (`f"{x}"`). -/
def PyVal.fstr : PyVal → String
  | .pyStr s => s
  | .pyInt n => toString n

/-! ### String helpers mirroring the Python string methods used -/

/-- Python `str.strip()` with no arguments: remove leading and trailing
whitespace. -/
def pyStrip (s : String) : String :=
  String.mk (((s.data.dropWhile Char.isWhitespace).reverse.dropWhile
    Char.isWhitespace).reverse)

/-- Python `str.capitalize()`: first character upper-cased, the rest
lower-cased (ASCII suffices for the month labels involved). -/
def pyCapitalize (s : String) : String :=
  match s.data with
  | [] => ""
  | c :: cs => String.mk (c.toUpper :: cs.map Char.toLower)

/-- Numeric value of a list of decimal digit characters. -/
def digitsVal (l : List Char) : Nat :=
  l.foldl (fun a c => a * 10 + (c.toNat - 48)) 0

/-- Interpret a nonempty all-digit character list; `none` otherwise. -/
def digitsToNat? (l : List Char) : Option Nat :=
  match l with
  | [] => none
  | _ => if l.all Char.isDigit then some (digitsVal l) else none

/-- Python `int(s)` on a string: optional surrounding whitespace,
optional sign, then decimal digits; `none` models `ValueError`.
(Underscore digit separators accepted by CPython are not modelled.) -/
def pyIntOfString (s : String) : Option Int :=
  match (pyStrip s).data with
  | [] => none
  | c :: cs =>
    if c = '-' then (digitsToNat? cs).map (fun n => -(n : Int))
    else if c = '+' then (digitsToNat? cs).map (fun n => (n : Int))
    else (digitsToNat? (c :: cs)).map (fun n => (n : Int))

/-- Substring test used to formalize an error message "naming" a
version: `listInfix pat s` holds when `pat` occurs contiguously in `s`. -/
def listInfix (pat : List Char) : List Char → Bool
  | [] => pat.isEmpty
  | c :: rest => pat.isPrefixOf (c :: rest) || listInfix pat rest

/-- Message `msg` names version `v` when the f-string rendering
`"{month} {year}"` of `v` occurs in `msg`. -/
def namesVersion (msg : String) (v : String × Int) : Bool :=
  listInfix (v.1 ++ " " ++ toString v.2).data msg.data

/-! ### VersionPolicy (`imf_reader/weo/reader.py`) -/

/-- Variant of `Version = Tuple[ValidMonths, int]`: a validated version
is a (month, year) pair. -/
abbrev Version := String × Int

/-- Embedding of `validate_version` (reader.py lines 16-46). The Python
tuple argument is modelled as a list of `PyVal`. A non-string first
element makes `version[0].strip()` raise `AttributeError` in Python,
which this embedding reproduces. -/
def validate_version : List PyVal → Except PyErr Version
  | [PyVal.pyStr s, y] =>
    -- month = version[0].strip().capitalize()
    let month := pyCapitalize (pyStrip s)
    if month == "April" || month == "October" then
      match y with
      | PyVal.pyInt n => Except.ok (month, n)
      | PyVal.pyStr ys =>
        -- year = int(year), ValueError caught and re-raised as TypeError
        match pyIntOfString ys with
        | some n => Except.ok (month, n)
        | none => Except.error (PyErr.typeError "Invalid year. Must be an integer")
    else
      Except.error (PyErr.typeError "Invalid month. Must be April or October")
  | [PyVal.pyInt _, _] =>
    -- version[0].strip() on an int raises AttributeError, uncaught
    Except.error (PyErr.attributeError "int object has no attribute strip")
  | _ =>
    Except.error
      (PyErr.typeError "Invalid version. Must be a tuple of month (April or October) and year")

/-- Embedding of `gen_latest_version` (reader.py lines 49-69), with
`datetime.now()` passed in as the current month and year. -/
def gen_latest_version (month : Nat) (year : Int) : Version :=
  if month < 4 then ("October", year - 1)
  else if month < 10 then ("April", year)
  else ("October", year)

/-- Embedding of `roll_back_version` (reader.py lines 72-94). -/
def roll_back_version (version : Version) : Except PyErr Version :=
  if version.1 == "October" then Except.ok ("April", version.2)
  else if version.1 == "April" then Except.ok ("October", version.2 - 1)
  else
    Except.error
      (PyErr.valueError ("Invalid version: (" ++ version.1 ++ ", " ++ toString version.2 ++ ")"))

/-! ### FetchOrchestrator (`fetch_data`, reader.py lines 121-168) -/

deriving instance DecidableEq for Except

/-- Observable outcome of one `fetch_data` call: the returned table or
raised exception, the `fetch_data.last_version_fetched` attribute after
the call (given its prior value), and the versions passed to the
single-version fetch collaborator `_fetch`, in call order. -/
structure FetchResult (α : Type) where
  result : Except PyErr α
  lastFetched : Option Version
  calls : List Version
  deriving DecidableEq, Repr

/-- Message of the `NoDataError` raised by the explicit-version branch
of `fetch_data`:
`f"Could not fetch data for version: {version[0]} {version[1]}. {str(e)}"`. -/
def fetchErrMsg (v : Version) (e : PyErr) : String :=
  "Could not fetch data for version: " ++ v.1 ++ " " ++ toString v.2 ++ ". " ++ e.str

/-- Embedding of the `version is not None` branch of `fetch_data`
(reader.py lines 142-154), the branch the recursive latest-path calls
also land in. `oracle` is the `_fetch` collaborator; `last0` the prior
value of the `last_version_fetched` attribute. The `except Exception`
clause wraps every failure (validation included) in a `NoDataError`;
when validation itself failed, the f-string in the handler re-indexes
the raw tuple. -/
def fetch_data_version {α : Type} (oracle : Version → Except PyErr α)
    (last0 : Option Version) (raw : List PyVal) : FetchResult α :=
  match validate_version raw with
  | Except.ok v =>
    match oracle v with
    | Except.ok df => ⟨Except.ok df, some v, [v]⟩
    | Except.error e =>
      ⟨Except.error (PyErr.noDataError (fetchErrMsg v e)), last0, [v]⟩
  | Except.error e =>
    match raw.get? 0, raw.get? 1 with
    | some a, some b =>
      ⟨Except.error (PyErr.noDataError
          ("Could not fetch data for version: " ++ a.fstr ++ " " ++ b.fstr ++ ". " ++ e.str)),
        last0, []⟩
    | _, _ => ⟨Except.error (PyErr.indexError "tuple index out of range"), last0, []⟩

/-- Embedding of `fetch_data` (reader.py lines 121-168). `month`/`year`
stand for `datetime.now()` inside `gen_latest_version`. The latest path
calls the explicit branch with the generated version, catches only
`NoDataError`, rolls back once and calls the explicit branch again. -/
def fetch_data {α : Type} (oracle : Version → Except PyErr α) (month : Nat)
    (year : Int) (last0 : Option Version) : Option (List PyVal) → FetchResult α
  | some raw => fetch_data_version oracle last0 raw
  | none =>
    let lv := gen_latest_version month year
    let r1 := fetch_data_version oracle last0 [PyVal.pyStr lv.1, PyVal.pyInt lv.2]
    match r1.result with
    | Except.ok _ => r1
    | Except.error e =>
      if e.isNoDataError then
        match roll_back_version lv with
        | Except.ok fb =>
          let r2 := fetch_data_version oracle r1.lastFetched
            [PyVal.pyStr fb.1, PyVal.pyInt fb.2]
          ⟨r2.result, r2.lastFetched, r1.calls ++ r2.calls⟩
        | Except.error e2 => ⟨Except.error e2, r1.lastFetched, r1.calls⟩
      else ⟨Except.error e, r1.lastFetched, r1.calls⟩

/-! ### SDMX parsing (`imf_reader/weo/parser.py`) -/

/-- An `xml.etree.ElementTree` element: tag, attribute dictionary,
text payload and child elements. Attribute dictionaries are association
lists with unique keys (XML guarantees uniqueness). -/
inductive Elem where
  | mk (tag : String) (attrib : List (String × String)) (text : Option String)
      (children : List Elem)

/-- Tag of an element. -/
def Elem.tag : Elem → String
  | .mk t _ _ _ => t

/-- Attribute dictionary of an element. -/
def Elem.attrib : Elem → List (String × String)
  | .mk _ a _ _ => a

/-- Text payload of an element. -/
def Elem.text : Elem → Option String
  | .mk _ _ t _ => t

/-- Child elements of an element. -/
def Elem.children : Elem → List Elem
  | .mk _ _ _ c => c

/-- First-occurrence lookup in an association list, the read semantics
of a Python dictionary rendered as an insertion-ordered pair list. -/
def lookupA {β : Type} (l : List (String × β)) (k : String) : Option β :=
  (l.find? (fun p => p.1 == k)).map (fun p => p.2)

/-- Python `{**a, **b}`: keys of `a` first in their order with values
overridden by `b` where present, then the keys of `b` not in `a`, in
order. -/
def pyDictMerge (a b : List (String × String)) : List (String × String) :=
  a.map (fun p => (p.1, (lookupA b p.1).getD p.2)) ++
    b.filter (fun q => (lookupA a q.1).isNone)

/-- Inner loop of `SDMXParser.parse_xml` (parser.py line 54-55):
`for obs in series: rows.append({**series.attrib, **obs.attrib})`. -/
def parseXmlObsLoop (series : Elem) : List Elem → List (List (String × String)) →
    List (List (String × String))
  | [], rows => rows
  | o :: rest, rows => parseXmlObsLoop series rest (rows ++ [pyDictMerge series.attrib o.attrib])

/-- Outer loop of `SDMXParser.parse_xml` (parser.py line 53):
`for series in root[1]`. -/
def parseXmlSeriesLoop : List Elem → List (List (String × String)) →
    List (List (String × String))
  | [], rows => rows
  | s :: rest, rows => parseXmlSeriesLoop rest (parseXmlObsLoop s s.children rows)

/-- Embedding of `SDMXParser.parse_xml` (parser.py lines 40-58). The
indexing `root[1]` raises `IndexError` when the root has fewer than two
children; the repository defines no dedicated malformed-archive error
class. -/
def parse_xml (root : Elem) : Except PyErr (List (List (String × String))) :=
  match root.children.get? 1 with
  | none => Except.error (PyErr.indexError "child index out of range")
  | some ds => Except.ok (parseXmlSeriesLoop ds.children [])

/-- Model of `str.endswith(ext)` via character lists. -/
def endsWithExt (name ext : String) : Bool :=
  ext.data.isSuffixOf name.data

/-- Embedding of `SDMXParser.check_folder` (parser.py lines 102-118),
acting on the archive name list (`ZipFile.namelist()`). The xml count is
checked first, then the xsd count. -/
def check_folder (names : List String) : Except PyErr Unit :=
  if (names.filter (fun f => endsWithExt f ".xml")).length ≠ 1 then
    Except.error (PyErr.unexpectedFileError "There should be exactly one xml file in the folder")
  else if (names.filter (fun f => endsWithExt f ".xsd")).length ≠ 1 then
    Except.error (PyErr.unexpectedFileError "There should be exactly one xsd file in the folder")
  else Except.ok ()

/-- Cell value of the modelled DataFrame: a string, a parsed number, or
missing (`NaN`; Python `None` cells are collapsed to it as pandas does
for numeric purposes). -/
inductive Val where
  | vStr (s : String)
  | vNum (q : Rat)
  | vNan
  deriving DecidableEq, Repr

/-- Unsigned numeric literal accepted by `pd.to_numeric`: digits with an
optional single decimal point and at least one digit overall.
(Exponent and special-float forms are outside the modelled surface.) -/
def parseUnsignedRat (l : List Char) : Option Rat :=
  let ip := l.takeWhile (fun c => c ≠ '.')
  let rest := l.drop ip.length
  if ip.all Char.isDigit then
    match rest with
    | [] =>
      match ip with
      | [] => none
      | _ => some ((digitsVal ip : Nat) : Rat)
    | _ :: frac =>
      if frac.all Char.isDigit && !(ip.isEmpty && frac.isEmpty) then
        some (((digitsVal ip : Nat) : Rat) +
          ((digitsVal frac : Nat) : Rat) / ((10 : Rat) ^ frac.length))
      else none
  else none

/-- Scalar string parse underlying `pd.to_numeric`: optional surrounding
whitespace, optional sign, then an unsigned numeric literal. `none`
models a parse failure. -/
def pyParseNumeric (s : String) : Option Rat :=
  match (pyStrip s).data with
  | [] => none
  | c :: cs =>
    if c = '-' then (parseUnsignedRat cs).map Neg.neg
    else if c = '+' then parseUnsignedRat cs
    else parseUnsignedRat (c :: cs)

/-- One cell under `pd.to_numeric(..., errors="coerce")` (parser.py
lines 142-143): a failed parse becomes missing, never an error. -/
def to_numeric_coerce (v : Val) : Val :=
  match v with
  | Val.vStr s =>
    match pyParseNumeric s with
    | some q => Val.vNum q
    | none => Val.vNan
  | Val.vNum q => Val.vNum q
  | Val.vNan => Val.vNan

/-- A DataFrame row: association list from column name to cell value.
A `pd.DataFrame(rows)` built from dictionaries is modelled as the list
of its rows. -/
abbrev PyRow := List (String × Val)

/-- Cell of a row at a column, `none` when the column is absent. -/
def rowGet (row : PyRow) (k : String) : Option Val :=
  lookupA row k

/-- Set a column of a row, replacing the value in place when the key is
present (pandas column assignment) or appending the column otherwise. -/
def rowSet (row : PyRow) (k : String) (v : Val) : PyRow :=
  if (row.find? (fun p => p.1 == k)).isSome then
    row.map (fun p => if p.1 == k then (p.1, v) else p)
  else row ++ [(k, v)]

/-- Column rename keeping position (`df.rename(columns={old: new})`). -/
def rowRename (row : PyRow) (old new : String) : PyRow :=
  row.map (fun p => if p.1 == old then (new, p.2) else p)

/-- Insert-or-update into a Python dictionary: on an existing key the
value is replaced in place, otherwise the pair is appended. -/
def dictUpsert (d : List (String × Option String)) (k : String) (v : Option String) :
    List (String × Option String) :=
  if (d.find? (fun p => p.1 == k)).isSome then
    d.map (fun p => if p.1 == k then (p.1, v) else p)
  else d ++ [(k, v)]

/-- Namespaced tag matched by the XPath in `lookup_schema_element`. -/
def xsSimpleTypeTag : String :=
  "\x7bhttp://www.w3.org/2001/XMLSchema\x7dsimpleType"

/-- Elements matched by
`./\x7bhttp://www.w3.org/2001/XMLSchema\x7dsimpleType[@name=FIELD]/*/*`:
grandchildren of the root children that are `simpleType` elements whose
`name` attribute equals the field name. -/
def schemaQuery (schema : Elem) (fieldName : String) : List Elem :=
  (schema.children.filter
      (fun st => st.tag == xsSimpleTypeTag && lookupA st.attrib "name" == some fieldName)).flatMap
    (fun st => st.children.flatMap (fun c => c.children))

/-- Embedding of `SDMXParser.lookup_schema_element` (parser.py lines
60-80): builds the code-to-label dictionary, where the label is
`elem[0][0].text`. Missing `value` attributes raise `KeyError` and
missing grandchildren raise `IndexError`, as the Python subscripts do. -/
def lookup_schema_element (schema : Elem) (fieldName : String) :
    Except PyErr (List (String × Option String)) :=
  (schemaQuery schema fieldName).foldlM
    (fun acc elem =>
      match lookupA elem.attrib "value" with
      | none => Except.error (PyErr.keyError "value")
      | some code =>
        match elem.children.get? 0 with
        | none => Except.error (PyErr.indexError "child index out of range")
        | some c0 =>
          match c0.children.get? 0 with
          | none => Except.error (PyErr.indexError "child index out of range")
          | some c00 => Except.ok (dictUpsert acc code c00.text))
    []

/-- The module constant `SDMX_FIELDS_TO_MAP` (parser.py lines 11-17). -/
def SDMX_FIELDS_TO_MAP : List (String × String) :=
  [("UNIT", "IMF.CL_WEO_UNIT.1.0"),
   ("CONCEPT", "IMF.CL_WEO_CONCEPT.1.0"),
   ("REF_AREA", "IMF.CL_WEO_REF_AREA.1.0"),
   ("FREQ", "IMF.CL_FREQ.1.0"),
   ("SCALE", "IMF.CL_WEO_SCALE.1.0")]

/-- The module constant `SDMX_NUMERIC_COLUMNS` (parser.py line 34). -/
def SDMX_NUMERIC_COLUMNS : List String :=
  ["REF_AREA_CODE", "OBS_VALUE", "SCALE_CODE", "LASTACTUALDATE", "TIME_PERIOD"]

/-- The `series.map(mapper)` lookup for one label cell: a missing
column cell, an unmapped code or a `None` schema label all yield `NaN`. -/
def labelCell (mapper : List (String × Option String)) (code : Option Val) : Val :=
  match code with
  | some (Val.vStr s) =>
    match lookupA mapper s with
    | some (some label) => Val.vStr label
    | some none => Val.vNan
    | none => Val.vNan
  | _ => Val.vNan

/-- Embedding of `SDMXParser.add_label_columns` (parser.py lines
82-100): for each `(column, lookup_name)` of `SDMX_FIELDS_TO_MAP`, add a
`column_LABEL` column at the end of the row, then rename `column` to
`column_CODE` in place. -/
def add_label_columns (df : List PyRow) (schema : Elem) : Except PyErr (List PyRow) :=
  SDMX_FIELDS_TO_MAP.foldlM
    (fun acc cm =>
      match lookup_schema_element schema cm.2 with
      | Except.error e => Except.error e
      | Except.ok mapper =>
        Except.ok (acc.map (fun row =>
          rowRename (row ++ [(cm.1 ++ "_LABEL", labelCell mapper (rowGet row cm.1))])
            cm.1 (cm.1 ++ "_CODE"))))
    df

/-- The numeric-coercion step of `SDMXParser.parse` (parser.py lines
142-143): each designated numeric column of each row is passed through
the coercing `pd.to_numeric`; a column absent from a row dictionary is a
`NaN` cell of the rectangular frame and stays `NaN`. -/
def coerce_numeric_columns (df : List PyRow) : List PyRow :=
  df.map (fun row =>
    SDMX_NUMERIC_COLUMNS.foldl
      (fun r c => rowSet r c (to_numeric_coerce ((rowGet r c).getD Val.vNan)))
      row)

/-- An in-memory archive (`ZipFile`): named entries whose contents are
already-parsed element trees (`ET.parse` of an entry). -/
abbrev Archive := List (String × Elem)

/-- Embedding of `SDMXParser.parse` (parser.py lines 120-146):
`check_folder`, then locate the single data and schema files by
extension, flatten the data tree, add label columns, and coerce the
numeric columns. The impossible-after-check empty-selection branches
reproduce the `IndexError` of `[...][0]` on an empty list. -/
def SDMXParser_parse (archive : Archive) : Except PyErr (List PyRow) :=
  match check_folder (archive.map (fun p => p.1)) with
  | Except.error e => Except.error e
  | Except.ok _ =>
    match archive.find? (fun p => endsWithExt p.1 ".xml"),
        archive.find? (fun p => endsWithExt p.1 ".xsd") with
    | some dataEntry, some schemaEntry =>
      match parse_xml dataEntry.2 with
      | Except.error e => Except.error e
      | Except.ok rows =>
        let df : List PyRow := rows.map (fun r => r.map (fun p => (p.1, Val.vStr p.2)))
        match add_label_columns df schemaEntry.2 with
        | Except.error e => Except.error e
        | Except.ok df2 => Except.ok (coerce_numeric_columns df2)
    | _, _ => Except.error (PyErr.indexError "list index out of range")

/-! ### TabParser numeric cleaning (parser.py lines 149-183) -/

/-- Python `s.replace(",", "")` for one cell of the
`.str.replace(",", "")` call. -/
def removeCommas (s : String) : String :=
  String.mk (s.data.filter (fun c => c ≠ ','))

/-- One cell of `TabParser.clean_value_col` (parser.py lines 165-170):
commas removed, a resulting `"--"` replaced by `NaN`, then
`pd.to_numeric` with the default `errors="raise"` policy, so any other
unparseable string raises `ValueError`. -/
def cleanValueCell (s : String) : Except PyErr Val :=
  let s1 := removeCommas s
  if s1 == "--" then Except.ok Val.vNan
  else
    match pyParseNumeric s1 with
    | some q => Except.ok (Val.vNum q)
    | none =>
      Except.error (PyErr.valueError ("Unable to parse string \"" ++ s1 ++ "\""))

/-- Embedding of `TabParser.clean_value_col` over the row-list frame:
the `OBS_VALUE` column is rewritten cell by cell; a missing column
raises `KeyError` and an existing `NaN` cell stays `NaN`. -/
def clean_value_col (df : List PyRow) : Except PyErr (List PyRow) :=
  df.mapM (fun row =>
    match rowGet row "OBS_VALUE" with
    | some (Val.vStr s) =>
      match cleanValueCell s with
      | Except.ok v => Except.ok (rowSet row "OBS_VALUE" v)
      | Except.error e => Except.error e
    | some Val.vNan => Except.ok row
    | some (Val.vNum q) => Except.ok (rowSet row "OBS_VALUE" (Val.vNum q))
    | none => Except.error (PyErr.keyError "OBS_VALUE"))

/-! ### Helper lemmas about the version policy and the orchestrator -/

/-- Validation is the identity on already-canonical (month, year) pairs. -/
theorem validate_version_month (lbl : String) (n : Int)
    (h : lbl = "October" ∨ lbl = "April") :
    validate_version [PyVal.pyStr lbl, PyVal.pyInt n] = Except.ok (lbl, n) := by
  rcases h with h | h <;> subst h <;> rfl

/-- The generated latest version always carries a canonical month label. -/
theorem gen_latest_fst (m : Nat) (y : Int) :
    (gen_latest_version m y).1 = "October" ∨ (gen_latest_version m y).1 = "April" := by
  unfold gen_latest_version
  split
  · left; rfl
  split
  · right; rfl
  · left; rfl

/-- The predecessor version that `roll_back_version` computes for a
canonical version. -/
def rollTarget (v : Version) : Version :=
  if v.1 = "October" then ("April", v.2) else ("October", v.2 - 1)

/-- The rolled-back version also carries a canonical month label. -/
theorem rollTarget_fst (v : Version) :
    (rollTarget v).1 = "October" ∨ (rollTarget v).1 = "April" := by
  unfold rollTarget
  split
  · right; rfl
  · left; rfl

/-- On canonical labels, `roll_back_version` succeeds with `rollTarget`. -/
theorem roll_back_of_fst (v : Version) (h : v.1 = "October" ∨ v.1 = "April") :
    roll_back_version v = Except.ok (rollTarget v) := by
  rcases h with h | h <;> simp [roll_back_version, rollTarget, h]

/-- Behavior of the explicit-version branch on a canonical version pair:
one collaborator call, the attribute updated only on success, every
failure wrapped in `NoDataError`. -/
theorem fetch_data_version_spec {α : Type} (oracle : Version → Except PyErr α)
    (last0 : Option Version) (v : Version) (hv : v.1 = "October" ∨ v.1 = "April") :
    fetch_data_version oracle last0 [PyVal.pyStr v.1, PyVal.pyInt v.2] =
      match oracle v with
      | Except.ok df => ⟨Except.ok df, some v, [v]⟩
      | Except.error e => ⟨Except.error (PyErr.noDataError (fetchErrMsg v e)), last0, [v]⟩ := by
  unfold fetch_data_version
  rw [validate_version_month v.1 v.2 hv]

/-- Full behavior of a latest-version `fetch_data` call, parametrized by
the collaborator outcomes: the expected latest version is tried first;
on success it is returned and recorded; on any failure (always wrapped
as `NoDataError` by the explicit branch) exactly one rollback is made
and the rolled-back version is tried once, its success recorded and its
failure wrapped in a `NoDataError` naming only the rolled-back
version. -/
theorem fetch_data_none_spec {α : Type} (oracle : Version → Except PyErr α)
    (m : Nat) (y : Int) (last0 : Option Version) :
    ∃ lv fb : Version, lv = gen_latest_version m y ∧
      roll_back_version lv = Except.ok fb ∧
      (∀ df, oracle lv = Except.ok df →
        fetch_data oracle m y last0 none = ⟨Except.ok df, some lv, [lv]⟩) ∧
      (∀ e, oracle lv = Except.error e →
        (∀ df2, oracle fb = Except.ok df2 →
          fetch_data oracle m y last0 none = ⟨Except.ok df2, some fb, [lv, fb]⟩) ∧
        (∀ e2, oracle fb = Except.error e2 →
          fetch_data oracle m y last0 none =
            ⟨Except.error (PyErr.noDataError (fetchErrMsg fb e2)), last0, [lv, fb]⟩)) := by
  refine ⟨gen_latest_version m y, rollTarget (gen_latest_version m y), rfl,
    roll_back_of_fst _ (gen_latest_fst m y), ?_, ?_⟩
  · intro df hdf
    simp only [fetch_data]
    rw [fetch_data_version_spec oracle last0 _ (gen_latest_fst m y), hdf]
  · intro e he
    constructor
    · intro df2 hdf2
      simp [fetch_data, fetch_data_version_spec oracle last0 _ (gen_latest_fst m y), he,
        PyErr.isNoDataError, roll_back_of_fst _ (gen_latest_fst m y),
        fetch_data_version_spec oracle last0 _ (rollTarget_fst (gen_latest_version m y)),
        hdf2]
    · intro e2 he2
      simp [fetch_data, fetch_data_version_spec oracle last0 _ (gen_latest_fst m y), he,
        PyErr.isNoDataError, roll_back_of_fst _ (gen_latest_fst m y),
        fetch_data_version_spec oracle last0 _ (rollTarget_fst (gen_latest_version m y)),
        he2]

/-! ### Claim C1 -/

/-- C1 (counterexample). The claim says a "latest" request whose
rollback retry also fails with `NoDataError` propagates a `NoDataError`
naming both attempted versions. On a November 2025 call with a
collaborator that always raises `NoDataError "no data yet"`, the
attempted versions are October 2025 and April 2025, but the propagated
message is exactly `"Could not fetch data for version: April 2025. no
data yet"`, which does not name the first attempted version October
2025. -/
theorem fetch_data_latest_error_names_only_fallback_cex :
    (fetch_data (fun _ => Except.error (PyErr.noDataError "no data yet") :
        Version → Except PyErr Nat) 11 2025 none none) =
      ⟨Except.error (PyErr.noDataError
          "Could not fetch data for version: April 2025. no data yet"),
        none, [("October", 2025), ("April", 2025)]⟩ ∧
    namesVersion "Could not fetch data for version: April 2025. no data yet"
      ("October", 2025) = false := by
  constructor
  · rfl
  · decide

/-- C1 (amended). For a "latest" request whose expected latest version
fails with `NoDataError`, exactly one rollback attempt is made to the
predecessor version (the collaborator call list is exactly the two
versions, so never a chain); if the retry succeeds its table is returned
and recorded as the last fetched version; if the retry also fails with
`NoDataError`, a `NoDataError` is propagated whose message names only
the rolled-back version and wraps the retry's own error message
(amendment: the original claim said the final error names both attempted
versions). -/
theorem fetch_data_latest_rollback_amended {α : Type}
    (oracle : Version → Except PyErr α) (m : Nat) (y : Int)
    (last0 : Option Version) (msg : String)
    (h1 : oracle (gen_latest_version m y) = Except.error (PyErr.noDataError msg)) :
    ∃ fb, roll_back_version (gen_latest_version m y) = Except.ok fb ∧
      (∀ df, oracle fb = Except.ok df →
        fetch_data oracle m y last0 none =
          ⟨Except.ok df, some fb, [gen_latest_version m y, fb]⟩) ∧
      (∀ msg2, oracle fb = Except.error (PyErr.noDataError msg2) →
        fetch_data oracle m y last0 none =
          ⟨Except.error (PyErr.noDataError
              ("Could not fetch data for version: " ++ fb.1 ++ " " ++ toString fb.2 ++
                ". " ++ msg2)),
            last0, [gen_latest_version m y, fb]⟩) := by
  obtain ⟨lv, fb, hlv, hfb, _, herr⟩ := fetch_data_none_spec oracle m y last0
  subst hlv
  refine ⟨fb, hfb, ?_, ?_⟩
  · intro df hdf
    exact (herr _ h1).1 df hdf
  · intro msg2 hmsg2
    exact (herr _ h1).2 (PyErr.noDataError msg2) hmsg2

/-- C1 (witness): latest request in November 2025 where October 2025 is
unpublished and April 2025 succeeds with table `7`: the result is `7`,
recorded as last fetched version April 2025, after exactly the two
collaborator calls. -/
theorem fetch_data_latest_rollback_amended_witness :
    fetch_data (fun v => if v = (("October", 2025) : Version) then
        Except.error (PyErr.noDataError "nope") else Except.ok (7 : Nat))
      11 2025 none none =
      ⟨Except.ok 7, some ("April", 2025), [("October", 2025), ("April", 2025)]⟩ := by
  obtain ⟨fb, hfb, hok, _⟩ := fetch_data_latest_rollback_amended
    (fun v => if v = (("October", 2025) : Version) then
      Except.error (PyErr.noDataError "nope") else Except.ok (7 : Nat))
    11 2025 none "nope" (by decide)
  have hfb2 : fb = (("April", 2025) : Version) :=
    Except.ok.inj (hfb.symm.trans (by decide))
  subst hfb2
  exact hok 7 (by decide)

/-! ### Claim C2 -/

/-- C2 (counterexample). The claim says errors other than `NoDataError`
(for example transport errors) are propagated unchanged, never masked by
the core error types. An explicit fetch of April 2024 whose collaborator
raises `ConnectionError "Could not connect"` returns a `NoDataError`
wrapping that message, not the `ConnectionError` itself. -/
theorem fetch_data_explicit_wraps_transport_cex :
    (fetch_data (fun _ => Except.error (PyErr.connectionError "Could not connect") :
        Version → Except PyErr Nat) 5 2024 none
        (some [PyVal.pyStr "April", PyVal.pyInt 2024])).result =
      Except.error (PyErr.noDataError
        "Could not fetch data for version: April 2024. Could not connect") ∧
    (fetch_data (fun _ => Except.error (PyErr.connectionError "Could not connect") :
        Version → Except PyErr Nat) 5 2024 none
        (some [PyVal.pyStr "April", PyVal.pyInt 2024])).result ≠
      Except.error (PyErr.connectionError "Could not connect") := by
  constructor
  · rfl
  · decide

/-- C2 (amended). When `fetch_data` is called with an explicit version
that validates, the single-version fetch collaborator is called exactly
once with the normalized version and no rollback is attempted (the call
list is exactly the one version); a success is returned and recorded;
but a failure of any class, transport errors included, is not propagated
unchanged: it is wrapped in a `NoDataError` naming the attempted version
with the original message appended (amendment: the original claim said
non-`NoDataError` errors pass through unchanged). -/
theorem fetch_data_explicit_amended {α : Type}
    (oracle : Version → Except PyErr α) (m : Nat) (y : Int)
    (last0 : Option Version) (raw : List PyVal) (v : Version)
    (hv : validate_version raw = Except.ok v) :
    (∀ df, oracle v = Except.ok df →
      fetch_data oracle m y last0 (some raw) = ⟨Except.ok df, some v, [v]⟩) ∧
    (∀ e, oracle v = Except.error e →
      fetch_data oracle m y last0 (some raw) =
        ⟨Except.error (PyErr.noDataError (fetchErrMsg v e)), last0, [v]⟩) := by
  constructor
  · intro df h
    show fetch_data_version oracle last0 raw = _
    unfold fetch_data_version
    rw [hv]
    simp [h]
  · intro e h
    show fetch_data_version oracle last0 raw = _
    unfold fetch_data_version
    rw [hv]
    simp [h]

/-- C2 (witness): an explicit fetch of April 2024 with a collaborator
that raises `NoDataError "gone"` makes exactly one call, attempts no
rollback, and raises the wrapping `NoDataError`. -/
theorem fetch_data_explicit_amended_witness :
    fetch_data (fun _ => Except.error (PyErr.noDataError "gone") :
        Version → Except PyErr Nat) 5 2024 none
      (some [PyVal.pyStr "April", PyVal.pyInt 2024]) =
      ⟨Except.error (PyErr.noDataError
          "Could not fetch data for version: April 2024. gone"),
        none, [("April", 2024)]⟩ := by
  have h := (fetch_data_explicit_amended
    (fun _ => Except.error (PyErr.noDataError "gone") : Version → Except PyErr Nat)
    5 2024 none [PyVal.pyStr "April", PyVal.pyInt 2024] ("April", 2024)
    (by decide)).2 (PyErr.noDataError "gone") (by decide)
  exact h.trans (by decide)

/-! ### Claim C3 -/

/-- C3. For every year `Y`, `roll_back_version` maps October (late-half)
of `Y` to April (early-half) of `Y`, and April of `Y` to October of
`Y - 1`; its composition with itself is not the identity, as
`roll_back(roll_back(April 2024)) = April 2023 which differs from April
2024; and any month label outside the two recognized values fails with
the `ValueError` that realizes the spec error `InvalidVersionError`. -/
theorem roll_back_version_spec_thm :
    (∀ y : Int, roll_back_version ("October", y) = Except.ok ("April", y)) ∧
    (∀ y : Int, roll_back_version ("April", y) = Except.ok ("October", y - 1)) ∧
    (roll_back_version ("April", 2024)).bind roll_back_version =
      Except.ok ("April", 2023) ∧
    (("April", 2023) : Version) ≠ (("April", 2024) : Version) ∧
    (∀ (lbl : String) (y : Int), lbl ≠ "October" → lbl ≠ "April" →
      roll_back_version (lbl, y) =
        Except.error (PyErr.valueError
          ("Invalid version: (" ++ lbl ++ ", " ++ toString y ++ ")"))) := by
  refine ⟨fun y => rfl, fun y => rfl, by decide, by decide, ?_⟩
  intro lbl y h1 h2
  unfold roll_back_version
  rw [if_neg, if_neg]
  · intro hb
    exact h2 (by simpa using hb)
  · intro hb
    exact h1 (by simpa using hb)

/-- C3 (witness): rolling back the unrecognized label March 2024 raises
the `ValueError`. -/
theorem roll_back_version_spec_witness :
    roll_back_version ("March", 2024) =
      Except.error (PyErr.valueError "Invalid version: (March, 2024)") := by
  have h := roll_back_version_spec_thm.2.2.2.2 "March" 2024 (by decide) (by decide)
  exact h.trans (by decide)

/-! ### Claim C4 -/

/-- C4. The expected latest version is a pure function of the current
date: in months 1-3 it is October (late-half) of the previous year, in
months 4-9 April (early-half) of the current year, and in months 10-12
October of the current year. -/
theorem gen_latest_version_windows (m : Nat) (y : Int) :
    (1 ≤ m → m ≤ 3 → gen_latest_version m y = ("October", y - 1)) ∧
    (4 ≤ m → m ≤ 9 → gen_latest_version m y = ("April", y)) ∧
    (10 ≤ m → m ≤ 12 → gen_latest_version m y = ("October", y)) := by
  unfold gen_latest_version
  refine ⟨fun h1 h2 => ?_, fun h1 h2 => ?_, fun h1 h2 => ?_⟩
  · rw [if_pos (by omega : m < 4)]
  · rw [if_neg (by omega : ¬ m < 4), if_pos (by omega : m < 10)]
  · rw [if_neg (by omega : ¬ m < 4), if_neg (by omega : ¬ m < 10)]

/-- C4 (witness): in February 2024 the expected latest version is
October 2023. -/
theorem gen_latest_version_windows_witness :
    gen_latest_version 2 2024 = ("October", 2023) := by
  have h := (gen_latest_version_windows 2 2024).1 (by decide) (by decide)
  exact h.trans (by decide)

/-! ### Claim C5 -/

/-- C5 (counterexample). The claim says every two-element input other
than a recognized-label, coercible-year pair fails with
`InvalidVersionError` (realized as `TypeError` by `validate_version`).
The two-element input `(0, 2024)`, whose period label is the integer
`0`, instead fails with `AttributeError` (Python evaluates
`(0).strip()`), which is not an `InvalidVersionError` realization. -/
theorem validate_version_nonstring_label_cex :
    validate_version [PyVal.pyInt 0, PyVal.pyInt 2024] =
      Except.error (PyErr.attributeError "int object has no attribute strip") ∧
    PyErr.isInvalidVersionError
      (PyErr.attributeError "int object has no attribute strip") = false := by
  constructor
  · rfl
  · rfl

/-- C5 (amended). `validate_version` returns the canonical
(month, year) pair for every two-element input whose period label is a
STRING that strip-and-capitalize normalizes to April or October and
whose year is an integer or an integer-coercible string; two-element
inputs with an unrecognized string label fail with the month
`TypeError`, recognized-label inputs with a non-coercible string year
fail with the year `TypeError`, wrong-shaped inputs (length other than
two) fail with the shape `TypeError` (all three realizing the spec
error `InvalidVersionError`); but a two-element input whose period
label is not a string fails with `AttributeError` instead (amendment:
the original claim put those inputs under `InvalidVersionError` too). -/
theorem validate_version_amended :
    (∀ (s : String) (y : Int),
      (pyCapitalize (pyStrip s) = "April" ∨ pyCapitalize (pyStrip s) = "October") →
      validate_version [PyVal.pyStr s, PyVal.pyInt y] =
        Except.ok (pyCapitalize (pyStrip s), y)) ∧
    (∀ (s ys : String) (y : Int),
      (pyCapitalize (pyStrip s) = "April" ∨ pyCapitalize (pyStrip s) = "October") →
      pyIntOfString ys = some y →
      validate_version [PyVal.pyStr s, PyVal.pyStr ys] =
        Except.ok (pyCapitalize (pyStrip s), y)) ∧
    (∀ (s : String) (b : PyVal),
      pyCapitalize (pyStrip s) ≠ "April" → pyCapitalize (pyStrip s) ≠ "October" →
      validate_version [PyVal.pyStr s, b] =
        Except.error (PyErr.typeError "Invalid month. Must be April or October")) ∧
    (∀ (s ys : String),
      (pyCapitalize (pyStrip s) = "April" ∨ pyCapitalize (pyStrip s) = "October") →
      pyIntOfString ys = none →
      validate_version [PyVal.pyStr s, PyVal.pyStr ys] =
        Except.error (PyErr.typeError "Invalid year. Must be an integer")) ∧
    (∀ l : List PyVal, l.length ≠ 2 →
      validate_version l =
        Except.error (PyErr.typeError
          "Invalid version. Must be a tuple of month (April or October) and year")) ∧
    (∀ (n : Int) (b : PyVal),
      validate_version [PyVal.pyInt n, b] =
        Except.error (PyErr.attributeError "int object has no attribute strip")) := by
  refine ⟨?_, ?_, ?_, ?_, ?_, ?_⟩
  · intro s y h
    simp only [validate_version]
    rcases h with h | h <;> rw [h] <;> rfl
  · intro s ys y h hy
    simp only [validate_version]
    rcases h with h | h <;> rw [h] <;> simp [hy]
  · intro s b h1 h2
    simp only [validate_version]
    have hc : (pyCapitalize (pyStrip s) == "April" ||
        pyCapitalize (pyStrip s) == "October") = false := by
      simp [h1, h2]
    cases b <;> rw [hc] <;> rfl
  · intro s ys h hy
    simp only [validate_version]
    rcases h with h | h <;> rw [h] <;> simp [hy]
  · intro l hl
    match l with
    | [] => rfl
    | [a] => cases a <;> rfl
    | a :: b :: c :: rest => cases a <;> rfl
    | [a, b] => exact absurd rfl hl
  · intro n b
    rfl

/-- C5 (witness): the mixed-case padded label pair
`(" apRil ", "2024")` validates to the canonical April 2024, and the
wrong-shape singleton `("April",)` raises the shape `TypeError`. -/
theorem validate_version_amended_witness :
    validate_version [PyVal.pyStr " apRil ", PyVal.pyStr "2024"] =
      Except.ok ("April", 2024) ∧
    validate_version [PyVal.pyStr "April"] =
      Except.error (PyErr.typeError
        "Invalid version. Must be a tuple of month (April or October) and year") := by
  constructor
  · have h := validate_version_amended.2.1 " apRil " "2024" 2024
      (Or.inl (by decide)) (by decide)
    exact h.trans (by decide)
  · exact validate_version_amended.2.2.2.2.1 [PyVal.pyStr "April"] (by decide)

/-! ### Helper lemmas about flattening and dictionary merge -/

/-- The observation loop appends one merged row per observation, in
order. -/
theorem parseXmlObsLoop_eq (s : Elem) (l : List Elem)
    (acc : List (List (String × String))) :
    parseXmlObsLoop s l acc =
      acc ++ l.map (fun o => pyDictMerge s.attrib o.attrib) := by
  induction l generalizing acc with
  | nil => simp [parseXmlObsLoop]
  | cons o rest ih =>
    simp [parseXmlObsLoop, ih]

/-- The series loop produces the concatenation of the per-series row
blocks, in series order. -/
theorem parseXmlSeriesLoop_eq (l : List Elem)
    (acc : List (List (String × String))) :
    parseXmlSeriesLoop l acc =
      acc ++ l.flatMap (fun s => s.children.map (fun o => pyDictMerge s.attrib o.attrib)) := by
  induction l generalizing acc with
  | nil => simp [parseXmlSeriesLoop]
  | cons s rest ih =>
    simp [parseXmlSeriesLoop, parseXmlObsLoop_eq, ih]

/-- Key lookup distributes over list append, preferring the left list. -/
theorem lookupA_append {b : Type} (x y : List (String × b)) (k : String) :
    lookupA (x ++ y) k = (lookupA x k).or (lookupA y k) := by
  unfold lookupA
  rw [List.find?_append]
  cases x.find? (fun p => p.1 == k) <;> simp

/-- One step of key lookup on a cons cell. -/
theorem lookupA_cons {b : Type} (p : String × b) (l : List (String × b)) (k : String) :
    lookupA (p :: l) k = if p.1 == k then some p.2 else lookupA l k := by
  by_cases h : (p.1 == k) = true <;>
    simp [lookupA, List.find?_cons_of_pos, List.find?_cons_of_neg, h]

/-- Key lookup through the value-overriding map of `pyDictMerge`. -/
theorem lookupA_map_merge (a b : List (String × String)) (k : String) :
    lookupA (a.map (fun p => (p.1, (lookupA b p.1).getD p.2))) k =
      (lookupA a k).map (fun w => (lookupA b k).getD w) := by
  induction a with
  | nil => rfl
  | cons q rest ih =>
    simp only [List.map_cons, lookupA_cons]
    cases h : (q.1 == k) with
    | true =>
      have hk : q.1 = k := by simpa using h
      subst hk
      simp
    | false => simp [h, ih]

/-- When a key is absent from `a`, filtering `b` by absence-from-`a`
does not change the lookup of that key. -/
theorem lookupA_filter_none (a b : List (String × String)) (k : String)
    (ha : lookupA a k = none) :
    lookupA (b.filter (fun q => (lookupA a q.1).isNone)) k = lookupA b k := by
  induction b with
  | nil => rfl
  | cons q rest ih =>
    simp only [List.filter_cons]
    cases hq : (lookupA a q.1).isNone with
    | true =>
      simp only [hq, if_pos]
      rw [lookupA_cons, lookupA_cons]
      cases h : (q.1 == k) <;> simp [ih]
    | false =>
      have hqk : (q.1 == k) = false := by
        cases hb : (q.1 == k) with
        | false => rfl
        | true =>
          have hk : q.1 = k := by simpa using hb
          rw [hk, ha] at hq
          simp at hq
      rw [if_neg (by simp), lookupA_cons, if_neg (by simp [hqk]), ih]

/-- Observation bias of the Python dictionary merge: a key present in
`b` keeps the `b` value in `pyDictMerge a b`. -/
theorem lookupA_merge_right (a b : List (String × String)) (k : String)
    (v : String) (h : lookupA b k = some v) :
    lookupA (pyDictMerge a b) k = some v := by
  unfold pyDictMerge
  rw [lookupA_append, lookupA_map_merge]
  cases hla : lookupA a k with
  | none => simp [lookupA_filter_none a b k hla, h]
  | some w => simp [h]

/-! ### Claim C6 -/

/-- C6. `SDMXParser.parse` fails with `UnexpectedFileError` whenever the
archive does not hold exactly one data (`.xml`) file and exactly one
schema (`.xsd`) file, counted by extension, whatever the archive
contents are (so the check runs before any parsing of the contents);
with exactly one of each, `check_folder` succeeds silently. -/
theorem check_folder_precondition (archive : Archive) :
    ((((archive.map (fun p => p.1)).filter (fun f => endsWithExt f ".xml")).length ≠ 1 ∨
        ((archive.map (fun p => p.1)).filter (fun f => endsWithExt f ".xsd")).length ≠ 1) →
      SDMXParser_parse archive = Except.error (PyErr.unexpectedFileError
        (if ((archive.map (fun p => p.1)).filter (fun f => endsWithExt f ".xml")).length ≠ 1
          then "There should be exactly one xml file in the folder"
          else "There should be exactly one xsd file in the folder"))) ∧
    (((archive.map (fun p => p.1)).filter (fun f => endsWithExt f ".xml")).length = 1 ∧
        ((archive.map (fun p => p.1)).filter (fun f => endsWithExt f ".xsd")).length = 1 →
      check_folder (archive.map (fun p => p.1)) = Except.ok ()) := by
  constructor
  · intro h
    by_cases hx : ((archive.map (fun p => p.1)).filter
        (fun f => endsWithExt f ".xml")).length = 1
    · have hs : ((archive.map (fun p => p.1)).filter
          (fun f => endsWithExt f ".xsd")).length ≠ 1 := by
        rcases h with h | h
        · exact absurd hx h
        · exact h
      have hcf : check_folder (archive.map (fun p => p.1)) =
          Except.error (PyErr.unexpectedFileError
            "There should be exactly one xsd file in the folder") := by
        unfold check_folder
        rw [if_neg (fun hcon => hcon hx), if_pos hs]
      unfold SDMXParser_parse
      rw [hcf, if_neg (fun hcon => hcon hx)]
    · have hcf : check_folder (archive.map (fun p => p.1)) =
          Except.error (PyErr.unexpectedFileError
            "There should be exactly one xml file in the folder") := by
        unfold check_folder
        rw [if_pos hx]
      unfold SDMXParser_parse
      rw [hcf, if_pos hx]
  · rintro ⟨h1, h2⟩
    unfold check_folder
    rw [if_neg (fun hcon => hcon h1), if_neg (fun hcon => hcon h2)]

/-- C6 (witness): an archive with two `.xml` entries and no `.xsd`
entry is rejected with the xml-count `UnexpectedFileError`, whatever
its contents. -/
theorem check_folder_precondition_witness :
    SDMXParser_parse [("a.xml", Elem.mk "r" [] none []), ("b.xml", Elem.mk "r" [] none [])] =
      Except.error (PyErr.unexpectedFileError
        "There should be exactly one xml file in the folder") := by
  have h := (check_folder_precondition
    [("a.xml", Elem.mk "r" [] none []), ("b.xml", Elem.mk "r" [] none [])]).1
    (Or.inl (by decide))
  exact h.trans (by decide)

/-! ### Claim C7 -/

/-- C7. Flattening a data tree whose dataset section is present
produces, per series, exactly one row per nested observation (a series
with zero observations contributes zero rows), each row the Python
dictionary merge of the series attributes with that observation
attributes, rows emitted in series traversal order with observation
order preserved (the flatMap normal form), and the total row count is
the sum of the per-series observation counts. -/
theorem parse_xml_flatten_rows (root ds : Elem)
    (h : root.children.get? 1 = some ds) :
    parse_xml root =
      Except.ok (ds.children.flatMap
        (fun s => s.children.map (fun o => pyDictMerge s.attrib o.attrib))) ∧
    (ds.children.flatMap
        (fun s => s.children.map (fun o => pyDictMerge s.attrib o.attrib))).length =
      (ds.children.map (fun s => s.children.length)).sum := by
  constructor
  · unfold parse_xml
    rw [h]
    show Except.ok (parseXmlSeriesLoop ds.children []) = _
    rw [parseXmlSeriesLoop_eq]
    rfl
  · rw [List.length_flatMap]
    simp [Function.comp_def]

/-- C7 (witness): a dataset with one two-observation series followed by
one zero-observation series flattens to exactly the two merged rows of
the first series, in order. -/
theorem parse_xml_flatten_rows_witness :
    parse_xml (Elem.mk "root" [] none
        [Elem.mk "header" [] none [],
         Elem.mk "dataset" [] none
          [Elem.mk "Series" [("UNIT", "U"), ("FREQ", "A")] none
            [Elem.mk "Obs" [("TIME_PERIOD", "2001"), ("OBS_VALUE", "3"), ("FREQ", "Q")] none [],
             Elem.mk "Obs" [("TIME_PERIOD", "2002")] none []],
           Elem.mk "Series" [("UNIT", "V")] none []]]) =
      Except.ok
        [[("UNIT", "U"), ("FREQ", "Q"), ("TIME_PERIOD", "2001"), ("OBS_VALUE", "3")],
         [("UNIT", "U"), ("FREQ", "A"), ("TIME_PERIOD", "2002")]] := by
  have h := (parse_xml_flatten_rows (Elem.mk "root" [] none
    [Elem.mk "header" [] none [],
     Elem.mk "dataset" [] none
      [Elem.mk "Series" [("UNIT", "U"), ("FREQ", "A")] none
        [Elem.mk "Obs" [("TIME_PERIOD", "2001"), ("OBS_VALUE", "3"), ("FREQ", "Q")] none [],
         Elem.mk "Obs" [("TIME_PERIOD", "2002")] none []],
       Elem.mk "Series" [("UNIT", "V")] none []]])
    (Elem.mk "dataset" [] none
      [Elem.mk "Series" [("UNIT", "U"), ("FREQ", "A")] none
        [Elem.mk "Obs" [("TIME_PERIOD", "2001"), ("OBS_VALUE", "3"), ("FREQ", "Q")] none [],
         Elem.mk "Obs" [("TIME_PERIOD", "2002")] none []],
       Elem.mk "Series" [("UNIT", "V")] none []]) rfl).1
  exact h.trans (by decide)

/-! ### Claim C9 -/

/-- C9 (counterexample). The claim says a structurally malformed data
file makes flattening fail with `MalformedArchiveError` and that this
failure is never retried. The repository defines no
`MalformedArchiveError` class at all (config.py defines only
`NoDataError` and `UnexpectedFileError`): a childless root makes
`parse_xml` raise the builtin `IndexError` from `root[1]`; and when the
single-version collaborator raises exactly that error during a "latest"
request, the orchestrator wraps it in `NoDataError` and performs the
rollback retry, so the collaborator is called twice: the failure IS
retried. -/
theorem parse_xml_malformed_cex :
    parse_xml (Elem.mk "root" [] none []) =
      Except.error (PyErr.indexError "child index out of range") ∧
    (fetch_data (fun _ => Except.error (PyErr.indexError "child index out of range") :
        Version → Except PyErr Nat) 11 2025 none none).calls.length = 2 := by
  constructor
  · rfl
  · rfl

/-- C9 (amended). When the data tree lacks the expected top-level
sections (`root[1]` missing), flattening fails with the builtin
`IndexError` (the repository defines no `MalformedArchiveError` class);
and on the implicit-latest path this failure, wrapped in `NoDataError`
by the explicit branch, does trigger the single rollback retry
(amendment: the original claim named a nonexistent error class and said
the failure is never retried). -/
theorem parse_xml_malformed_amended (root : Elem)
    (h : root.children.get? 1 = none) :
    parse_xml root = Except.error (PyErr.indexError "child index out of range") ∧
    ∀ {α : Type} (oracle : Version → Except PyErr α) (m : Nat) (y : Int)
      (last0 : Option Version) (msg : String),
      oracle (gen_latest_version m y) = Except.error (PyErr.indexError msg) →
      (fetch_data oracle m y last0 none).calls.length = 2 := by
  constructor
  · unfold parse_xml
    rw [h]
  · intro α oracle m y last0 msg hor
    obtain ⟨lv, fb, hlv, hfb, _, herr⟩ := fetch_data_none_spec oracle m y last0
    subst hlv
    obtain ⟨hok, herr2⟩ := herr _ hor
    cases h2 : oracle fb with
    | ok df =>
      rw [hok df h2]
      rfl
    | error e2 =>
      rw [herr2 e2 h2]
      rfl

/-- C9 (witness): a root with a single child is malformed
(`root[1]` raises), and an oracle failing with that `IndexError` at the
expected October 2025 version is retried once at April 2025. -/
theorem parse_xml_malformed_amended_witness :
    parse_xml (Elem.mk "root" [] none [Elem.mk "header" [] none []]) =
      Except.error (PyErr.indexError "child index out of range") ∧
    (fetch_data (fun _ => Except.error (PyErr.indexError "boom") :
        Version → Except PyErr Nat) 10 2025 none none).calls.length = 2 := by
  have h := parse_xml_malformed_amended
    (Elem.mk "root" [] none [Elem.mk "header" [] none []]) rfl
  exact ⟨h.1, h.2 (fun _ => Except.error (PyErr.indexError "boom"))
    10 2025 none "boom" (by decide)⟩

/-! ### Claim C10 -/

/-- C10. Every flattened row comes from one series and one of its
observations as the Python dictionary merge of their attribute sets,
and whenever a key occurs in the observation attributes its observation
value is the one visible in the row: the merge is observation-biased. -/
theorem merge_observation_bias (root : Elem)
    (rows : List (List (String × String)))
    (hp : parse_xml root = Except.ok rows)
    (row : List (String × String)) (hr : row ∈ rows) :
    ∃ ds s o, root.children.get? 1 = some ds ∧ s ∈ ds.children ∧
      o ∈ s.children ∧ row = pyDictMerge s.attrib o.attrib ∧
      ∀ k v, lookupA o.attrib k = some v → lookupA row k = some v := by
  unfold parse_xml at hp
  cases hg : root.children.get? 1 with
  | none =>
    rw [hg] at hp
    exact absurd hp (by simp)
  | some ds =>
    rw [hg] at hp
    have hrows : rows = ds.children.flatMap
        (fun s => s.children.map (fun o => pyDictMerge s.attrib o.attrib)) := by
      have h1 := Except.ok.inj hp
      rw [parseXmlSeriesLoop_eq] at h1
      simpa using h1.symm
    subst hrows
    rcases List.mem_flatMap.mp hr with ⟨s, hs, hrow⟩
    rcases List.mem_map.mp hrow with ⟨o, ho, hre⟩
    refine ⟨ds, s, o, rfl, hs, ho, hre.symm, ?_⟩
    intro k v hkv
    rw [← hre]
    exact lookupA_merge_right s.attrib o.attrib k v hkv

/-- C10 (witness): in the concrete flattened archive, the row of the
first observation carries the observation value `"Q"` for the key
`FREQ` that the series also defines (as `"A"`). -/
theorem merge_observation_bias_witness :
    ∃ ds s o,
      (Elem.mk "root" [] none
        [Elem.mk "header" [] none [],
         Elem.mk "dataset" [] none
          [Elem.mk "Series" [("UNIT", "U"), ("FREQ", "A")] none
            [Elem.mk "Obs" [("TIME_PERIOD", "2001"), ("OBS_VALUE", "3"), ("FREQ", "Q")] none
              []]]]).children.get? 1 = some ds ∧
      s ∈ ds.children ∧ o ∈ s.children ∧
      ([("UNIT", "U"), ("FREQ", "Q"), ("TIME_PERIOD", "2001"), ("OBS_VALUE", "3")] :
        List (String × String)) = pyDictMerge s.attrib o.attrib ∧
      ∀ k v, lookupA o.attrib k = some v →
        lookupA ([("UNIT", "U"), ("FREQ", "Q"), ("TIME_PERIOD", "2001"), ("OBS_VALUE", "3")] :
          List (String × String)) k = some v := by
  exact merge_observation_bias
    (Elem.mk "root" [] none
      [Elem.mk "header" [] none [],
       Elem.mk "dataset" [] none
        [Elem.mk "Series" [("UNIT", "U"), ("FREQ", "A")] none
          [Elem.mk "Obs" [("TIME_PERIOD", "2001"), ("OBS_VALUE", "3"), ("FREQ", "Q")] none
            []]]])
    [[("UNIT", "U"), ("FREQ", "Q"), ("TIME_PERIOD", "2001"), ("OBS_VALUE", "3")]]
    (by decide)
    [("UNIT", "U"), ("FREQ", "Q"), ("TIME_PERIOD", "2001"), ("OBS_VALUE", "3")]
    (by decide)

/-! ### Claim C8 -/

/-- C8 (counterexample). The claim says numeric coercion of a
designated numeric column never raises, coerces `"1,234"` to `1234` and
coerces placeholders like `"--"` to missing. No single coercion path of
the code satisfies all of that: the tab-file value cleaner raises
`ValueError` on the placeholder `"n/a"` (its `pd.to_numeric` uses the
default raise policy), while the SDMX coercion (which never raises)
sends `"1,234"` to missing rather than to `1234`. -/
theorem numeric_coercion_cex :
    cleanValueCell "n/a" =
      Except.error (PyErr.valueError "Unable to parse string \"n/a\"") ∧
    to_numeric_coerce (Val.vStr "1,234") = Val.vNan := by
  constructor
  · rfl
  · rfl

/-- C8 (amended). In the tab pipeline value cleaner, `"1,234"` coerces
to the number `1234` and `"--"` coerces to missing without raising, but
any other value still unparseable after comma removal raises
`ValueError`; in the SDMX pipeline, coercion never raises and every
unparseable value, `"1,234"` included, becomes missing (amendment: the
original claim combined never-raising with comma-tolerant parsing,
which no single code path provides). -/
theorem numeric_coercion_amended :
    cleanValueCell "1,234" = Except.ok (Val.vNum 1234) ∧
    cleanValueCell "--" = Except.ok Val.vNan ∧
    (∀ s : String, removeCommas s ≠ "--" → pyParseNumeric (removeCommas s) = none →
      cleanValueCell s = Except.error (PyErr.valueError
        ("Unable to parse string \"" ++ removeCommas s ++ "\""))) ∧
    (∀ s : String, pyParseNumeric s = none →
      to_numeric_coerce (Val.vStr s) = Val.vNan) ∧
    to_numeric_coerce (Val.vStr "1,234") = Val.vNan := by
  refine ⟨by decide, by decide, ?_, ?_, by decide⟩
  · intro s h1 h2
    simp only [cleanValueCell]
    rw [if_neg (by simpa using h1), h2]
  · intro s h
    simp only [to_numeric_coerce]
    rw [h]

/-- C8 (witness): the percentage placeholder `"12%"` raises the
`ValueError` in the tab cleaner, while the SDMX coercion turns the
placeholder `"--"` into missing without raising. -/
theorem numeric_coercion_amended_witness :
    cleanValueCell "12%" =
      Except.error (PyErr.valueError "Unable to parse string \"12%\"") ∧
    to_numeric_coerce (Val.vStr "--") = Val.vNan := by
  constructor
  · have h := numeric_coercion_amended.2.2.1 "12%" (by decide) (by decide)
    exact h.trans (by decide)
  · exact numeric_coercion_amended.2.2.2.1 "--" (by decide)

end ImfReader
